import Mathlib

/-!
Verification of the Rosetta API server lifecycle core
(`src/rs/rosetta-api/icp/src/rosetta_server.rs`): the result-to-response
translation layer with its status-code metrics, the `run()` state machine
on `ServerState`, and the background block-synchronization loop spawned by
`start_sync_thread`, including its heartbeat, error metrics and cleanup
behaviour.

Metrics are modelled as event traces: the translator returns, together
with the response, the ordered list of `rosetta_api_status_total` label
increments it performs; the sync loop returns the ordered list of
observable events (log, counter increment, gauge set, histogram
observation, heartbeat, listener-stop request, cleanup call) it emits.
Wall-clock instants are modelled as natural numbers supplied per
iteration; `Instant::now().duration_since(synced_at)` becomes truncated
subtraction `now - synced_at`.
-/

/-- Modelled from the spec: `ApiError` (defined in `errors.rs`, which is not
under `src/`) is a structured error value with a numeric protocol error
code, a human message, and a retriable flag. -/
structure ApiError where
  code : Nat
  message : String
  retriable : Bool
deriving DecidableEq

/-- Modelled from the spec: the protocol's wire error envelope (the
`rosetta_core` `Error` type, not under `src/`); in the source
`converted.0.code` reads the numeric protocol code of the envelope. -/
structure RosettaError where
  code : Nat
  message : String
  retriable : Bool
deriving DecidableEq

/-- Modelled from the spec: `errors::convert_to_error` (in `errors.rs`, not
under `src/`) converts an `ApiError` into the wire error envelope, carrying
over the numeric protocol code, message and retriable flag. -/
def convert_to_error (e : ApiError) : RosettaError :=
  { code := e.code, message := e.message, retriable := e.retriable }

/-- Modelled from the spec: `Error::serialization_error_json_str()` (not
under `src/`) is a fixed generic serialization-error payload. Its exact
text is irrelevant to the claims; only that it is one fixed string. -/
def serialization_error_json_str : String :=
  "serialization error payload"

/-- An HTTP response as the translator produces it: transport status code
and body string. -/
structure HttpResponse where
  status : Nat
  body : String
deriving DecidableEq

/-- `internal_error_response` from the source: increments the
`rosetta_api_status_total` counter labelled `"700"` and returns a
500 (InternalServerError) response with the given body. The returned
list is the ordered trace of status-counter label increments. -/
def internal_error_response (resp : String) : HttpResponse × List String :=
  ({ status := 500, body := resp }, ["700"])

/-- `to_rosetta_response` from the source. Serialization
(`serde_json::to_string`) is external and fallible, so it is supplied as
two functions, one for the success type `S` and one for the error
envelope; `none` models a serialization failure. The second component is
the ordered trace of `rosetta_api_status_total` label increments. -/
def to_rosetta_response {S : Type} (ser : S → Option String)
    (serErr : RosettaError → Option String)
    (result : Except ApiError S) : HttpResponse × List String :=
  match result with
  | .ok x =>
    match ser x with
    | some resp => ({ status := 200, body := resp }, ["200"])
    | none => internal_error_response serialization_error_json_str
  | .error api_err =>
    let converted := convert_to_error api_err
    match serErr converted with
    | some resp =>
      let err_code := toString converted.code
      let r := internal_error_response resp
      (r.1, err_code :: r.2)
    | none => internal_error_response serialization_error_json_str

/-- `ServerState` from the source: the four-variant server state. The
`Unstarted` variant's `Server` payload is not needed by any claim (the
listener's completion outcome is passed to `run` explicitly), so it is
carried as a unit here. -/
inductive ServerState where
  | Unstarted
  | Started
  | OfflineStarted
  | Failed
deriving DecidableEq

/-- `RosettaApiServerOpt` from the source: the four boolean run options. -/
structure RosettaApiServerOpt where
  exit_on_sync : Bool
  offline : Bool
  mainnet : Bool
  not_whitelisted : Bool
deriving DecidableEq

/-- Observable side effects of `RosettaApiServer::run`: awaiting the
listener (`server.await`), starting the watchdog-supervised sync task
(`watchdog_thread.start`), and stopping the watchdog
(`watchdog_thread.stop`). -/
inductive RunEffect where
  | startWatchdog
  | serveRequests
  | stopWatchdog
deriving DecidableEq

/-- The error message of the `ServerState.Failed` arm of `run`. -/
def runPreviouslyFailedMsg : String := "run previously failed!"

/-- `RosettaApiServer::run` from the source, as a state-transition
function. The source first `replace`s the state with `Failed` and only
writes the arm's final state back on normal completion, so any arm that
exits early with an error (or panics) leaves the state `Failed`; the
model reflects this by returning `Failed` exactly on the error paths.
`serverResult` is the outcome of awaiting the listener (`server.await`),
an external event; `.error` models the `?` propagation. The result is
(new state, returned result, ordered trace of side effects). -/
def RosettaApiServer.run (st : ServerState) (o : RosettaApiServerOpt)
    (serverResult : Except String Unit) :
    ServerState × Except String Unit × List RunEffect :=
  match st with
  | .Started => (.Started, .ok (), [])
  | .OfflineStarted => (.OfflineStarted, .ok (), [])
  | .Failed => (.Failed, .error runPreviouslyFailedMsg, [])
  | .Unstarted =>
    if o.offline then
      match serverResult with
      | .ok _ => (.OfflineStarted, .ok (), [.serveRequests])
      | .error e => (.Failed, .error e, [.serveRequests])
    else
      match serverResult with
      | .ok _ =>
        (.Started, .ok (), [.startWatchdog, .serveRequests, .stopWatchdog])
      | .error e => (.Failed, .error e, [.startWatchdog, .serveRequests])

/-- The ledger collaborator's sync error: `sync_blocks` failures expose
only `is_internal_error_403()` to this core. -/
structure SyncErr where
  is_internal_error_403 : Bool
deriving DecidableEq

/-- Observable events of one run of the sync loop body spawned by
`start_sync_thread`: the error log (with its whitelisting-hint suffix),
the `SYNC_ERR_COUNTER` increment, the `OUT_OF_SYNC_TIME` gauge set, the
`OUT_OF_SYNC_TIME_HIST` observation, the heartbeat call, the
`server_handle.stop(true)` request, and the `ledger.cleanup()` call. -/
inductive SyncEvent where
  | logError (hint : String)
  | syncErrInc
  | gaugeSet (t : Nat)
  | histObserve (t : Nat)
  | heartbeat
  | serverStop
  | cleanup
deriving DecidableEq

/-- The whitelisting hint appended to the sync error log in the source
(the string literal bound to `msg_403` when its condition holds). -/
def hint_403 : String :=
  ", You may not be whitelisted; please try running the Rosetta server again with the --not_whitelisted flag"

/-- The `msg_403` binding from `start_sync_thread`: the hint is appended
exactly when `mainnet && !not_whitelisted && err.is_internal_error_403()`,
and is the empty string otherwise. -/
def msg_403 (mainnet not_whitelisted : Bool) (err : SyncErr) : String :=
  if mainnet && !not_whitelisted && err.is_internal_error_403 then hint_403
  else ""

/-- One execution of the sync loop body from `start_sync_thread`, after
the `stopped` check passed and `interval.tick()` returned. `synced_at`
is the last-success instant, `now` the current instant, and `res` the
outcome of `ledger.sync_blocks` (`none` on success, `some err` on
failure). Returns the new `synced_at`, the emitted events in order, and
whether the body executed `break` (the `exit_on_sync` branch). -/
def syncIter (mainnet not_whitelisted exit_on_sync : Bool)
    (synced_at now : Nat) (res : Option SyncErr) :
    Nat × List SyncEvent × Bool :=
  let step :=
    match res with
    | some err =>
      (synced_at,
        [SyncEvent.logError (msg_403 mainnet not_whitelisted err),
         SyncEvent.syncErrInc,
         SyncEvent.gaugeSet (now - synced_at)])
    | none =>
      (now,
        [SyncEvent.gaugeSet (now - synced_at),
         SyncEvent.histObserve (now - synced_at)])
  let withBeat := step.2 ++ [SyncEvent.heartbeat]
  if exit_on_sync then (step.1, withBeat ++ [SyncEvent.serverStop], true)
  else (step.1, withBeat, false)

/-- The sync loop spawned by `start_sync_thread`, driven by a finite
trace of per-iteration external inputs: whether `stopped.load(Relaxed)`
observed `true` at the loop head, the current instant, and the
`sync_blocks` outcome. Returns the emitted events in order and whether
the task terminated (left the loop and ran `ledger.cleanup()`); a
trace exhausted mid-loop leaves the task still running (`false`). -/
def start_sync_thread (mainnet not_whitelisted exit_on_sync : Bool)
    (synced_at : Nat) :
    List (Bool × Nat × Option SyncErr) → List SyncEvent × Bool
  | [] => ([], false)
  | (stoppedObs, now, res) :: rest =>
    if stoppedObs then ([SyncEvent.cleanup], true)
    else
      let r := syncIter mainnet not_whitelisted exit_on_sync synced_at now res
      if r.2.2 then (r.2.1 ++ [SyncEvent.cleanup], true)
      else
        let out := start_sync_thread mainnet not_whitelisted exit_on_sync r.1 rest
        (r.2.1 ++ out.1, out.2)

/-- Number of iterations of the sync loop that execute the loop body on a
given input trace (iterations whose head check saw `stopped = false`),
taking into account that with `exit_on_sync = true` the body breaks
after its first execution. -/
def bodyIterations (exit_on_sync : Bool) :
    List (Bool × Nat × Option SyncErr) → Nat
  | [] => 0
  | (stoppedObs, _, _) :: rest =>
    if stoppedObs then 0
    else if exit_on_sync then 1
    else 1 + bodyIterations exit_on_sync rest

/-- The values of the `OUT_OF_SYNC_TIME` gauge sets, in emission order. -/
def gaugeValues (evs : List SyncEvent) : List Nat :=
  evs.filterMap (fun e =>
    match e with
    | SyncEvent.gaugeSet t => some t
    | _ => none)

theorem syncIter_brk (mn nw eos : Bool) (sa now : Nat) (res : Option SyncErr) :
    (syncIter mn nw eos sa now res).2.2 = eos := by
  cases res <;> cases eos <;> simp [syncIter]

theorem syncIter_heartbeat_count (mn nw eos : Bool) (sa now : Nat)
    (res : Option SyncErr) :
    (syncIter mn nw eos sa now res).2.1.count SyncEvent.heartbeat = 1 := by
  cases res <;> cases eos <;> simp [syncIter]

theorem syncIter_cleanup_count (mn nw eos : Bool) (sa now : Nat)
    (res : Option SyncErr) :
    (syncIter mn nw eos sa now res).2.1.count SyncEvent.cleanup = 0 := by
  cases res <;> cases eos <;> simp [syncIter]

theorem heartbeat_count_loop (mn nw eos : Bool)
    (inputs : List (Bool × Nat × Option SyncErr)) (sa : Nat) :
    (start_sync_thread mn nw eos sa inputs).1.count SyncEvent.heartbeat =
      bodyIterations eos inputs := by
  induction inputs generalizing sa with
  | nil => simp [start_sync_thread, bodyIterations]
  | cons hd tl ih =>
    obtain ⟨stopObs, now, res⟩ := hd
    cases stopObs
    · cases eos <;>
        simp [start_sync_thread, bodyIterations, syncIter_brk,
          List.count_append, syncIter_heartbeat_count, ih]
    · simp [start_sync_thread, bodyIterations]

theorem cleanup_once_loop (mn nw eos : Bool)
    (inputs : List (Bool × Nat × Option SyncErr)) (sa : Nat) :
    ((start_sync_thread mn nw eos sa inputs).2 = true →
      (start_sync_thread mn nw eos sa inputs).1.count SyncEvent.cleanup = 1 ∧
      (start_sync_thread mn nw eos sa inputs).1.getLast? =
        some SyncEvent.cleanup) ∧
    ((start_sync_thread mn nw eos sa inputs).2 = false →
      (start_sync_thread mn nw eos sa inputs).1.count SyncEvent.cleanup = 0) := by
  induction inputs generalizing sa with
  | nil => simp [start_sync_thread]
  | cons hd tl ih =>
    obtain ⟨stopObs, now, res⟩ := hd
    cases stopObs
    · cases heos : eos
      · subst heos
        have h := ih ((syncIter mn nw false sa now res).1)
        constructor
        · intro ht
          simp only [start_sync_thread, Bool.false_eq_true, if_false,
            syncIter_brk] at ht ⊢
          have hcnt := (h.1 ht).1
          have hlast := (h.1 ht).2
          refine ⟨?_, ?_⟩
          · simp [List.count_append, syncIter_cleanup_count, hcnt]
          · have hne : (start_sync_thread mn nw false
                ((syncIter mn nw false sa now res).1) tl).1 ≠ [] := by
              intro hnil
              rw [hnil] at hlast
              simp at hlast
            rw [List.getLast?_append_of_ne_nil _ hne]
            exact hlast
        · intro hf
          simp only [start_sync_thread, Bool.false_eq_true, if_false,
            syncIter_brk] at hf ⊢
          simp [List.count_append, syncIter_cleanup_count, h.2 hf]
      · subst heos
        constructor
        · intro _
          simp only [start_sync_thread, Bool.false_eq_true, if_false,
            syncIter_brk, if_true]
          refine ⟨?_, ?_⟩
          · simp [List.count_append, syncIter_cleanup_count]
          · exact List.getLast?_concat _
        · intro hf
          simp only [start_sync_thread, Bool.false_eq_true, if_false,
            syncIter_brk, if_true] at hf
          exact absurd hf (by simp)
    · simp [start_sync_thread]

theorem sync_failures_run (mn nw : Bool) (fails : List (Nat × SyncErr))
    (sa : Nat) :
    (start_sync_thread mn nw false sa
        (fails.map (fun p => (false, p.1, some p.2)))).1.count
      SyncEvent.syncErrInc = fails.length ∧
    gaugeValues (start_sync_thread mn nw false sa
        (fails.map (fun p => (false, p.1, some p.2)))).1 =
      fails.map (fun p => p.1 - sa) := by
  induction fails generalizing sa with
  | nil => simp [start_sync_thread, gaugeValues]
  | cons hd tl ih =>
    obtain ⟨t, err⟩ := hd
    have h := ih sa
    constructor
    · simp only [List.map_cons, start_sync_thread, Bool.false_eq_true,
        if_false, syncIter, List.count_append]
      simp [h.1]
      omega
    · simp only [List.map_cons, start_sync_thread, Bool.false_eq_true,
        if_false, syncIter, gaugeValues, List.filterMap_append] at h ⊢
      simp [h.2]

/-- C1, counterexample: with `exit_on_sync = true`, a FAILED first
`sync_blocks` iteration already requests the listener stop and breaks out
of the loop — the `if exit_on_sync` block in the source runs after every
iteration, not only after successful ones. The trace offers a second,
would-be successful iteration that is never consumed: the loop exits
(with `cleanup`) right after the failed iteration, emitting `serverStop`. -/
theorem c1_counterexample_failed_iteration_exits :
    (start_sync_thread false false true 0
        [(false, 1, some (SyncErr.mk false)), (false, 2, none)]).1 =
      [SyncEvent.logError "", SyncEvent.syncErrInc, SyncEvent.gaugeSet 1,
       SyncEvent.heartbeat, SyncEvent.serverStop, SyncEvent.cleanup] ∧
    (start_sync_thread false false true 0
        [(false, 1, some (SyncErr.mk false)), (false, 2, none)]).2 = true := by
  decide

/-- C1, amended: with `exit_on_sync = true`, the first iteration of the
sync loop that executes its body — whether `sync_blocks` succeeded or
failed — requests the listener stop exactly once, breaks out of the loop,
and `cleanup()` is invoked exactly once. -/
theorem c1_exit_on_sync_after_first_iteration (mn nw : Bool) (sa now : Nat)
    (res : Option SyncErr) (rest : List (Bool × Nat × Option SyncErr)) :
    (start_sync_thread mn nw true sa ((false, now, res) :: rest)).2 = true ∧
    (start_sync_thread mn nw true sa
        ((false, now, res) :: rest)).1.count SyncEvent.serverStop = 1 ∧
    (start_sync_thread mn nw true sa
        ((false, now, res) :: rest)).1.count SyncEvent.cleanup = 1 := by
  cases res <;> simp [start_sync_thread, syncIter, List.count_append]

/-- C2: the `Failed` server state is absorbing. Whenever `run` returns an
error, the state it leaves behind is `Failed` (the source `replace`s the
state with `Failed` up front, so early exits — errors or panics — leave
it in place), and `run` from the `Failed` state returns the
"run previously failed!" error with no side effects and state still
`Failed`. -/
theorem c2_failed_state_absorbing :
    (∀ (st : ServerState) (o : RosettaApiServerOpt)
        (r : Except String Unit) (e : String),
      (RosettaApiServer.run st o r).2.1 = Except.error e →
      (RosettaApiServer.run st o r).1 = ServerState.Failed) ∧
    (∀ (o : RosettaApiServerOpt) (r : Except String Unit),
      RosettaApiServer.run ServerState.Failed o r =
        (ServerState.Failed, Except.error runPreviouslyFailedMsg, [])) := by
  constructor
  · intro st o r e h
    cases st with
    | Started => simp [RosettaApiServer.run] at h
    | OfflineStarted => simp [RosettaApiServer.run] at h
    | Failed => rfl
    | Unstarted =>
      cases r <;> cases ho : o.offline <;>
        simp [RosettaApiServer.run, ho] at h ⊢
  · intro o r
    rfl

/-- C2 witness: a concrete `run` from `Failed` returns an error and leaves
the state `Failed`, with the already-failed error and no effects. -/
theorem c2_witness :
    (RosettaApiServer.run ServerState.Failed ⟨false, false, false, false⟩
        (Except.ok ())).1 = ServerState.Failed ∧
    RosettaApiServer.run ServerState.Failed ⟨false, false, false, false⟩
        (Except.ok ()) =
      (ServerState.Failed, Except.error runPreviouslyFailedMsg, []) :=
  ⟨c2_failed_state_absorbing.1 ServerState.Failed ⟨false, false, false, false⟩
      (Except.ok ()) runPreviouslyFailedMsg rfl,
   c2_failed_state_absorbing.2 ⟨false, false, false, false⟩ (Except.ok ())⟩

/-- C3: translating `Err(e)` always yields transport status 500 (for every
error, even when the envelope fails to serialize), and when the converted
envelope serializes to `resp`, the body is `resp` — the serialized
envelope carrying `e`'s protocol code — and the status counter keyed by
the stringified protocol error code is incremented. -/
theorem c3_translate_err_status_500 {S : Type} (ser : S → Option String)
    (serErr : RosettaError → Option String) (e : ApiError) (resp : String)
    (h : serErr (convert_to_error e) = some resp) :
    (∀ e' : ApiError,
      (to_rosetta_response ser serErr (Except.error e')).1.status = 500) ∧
    (to_rosetta_response ser serErr (Except.error e)).1.body = resp ∧
    (convert_to_error e).code = e.code ∧
    toString (convert_to_error e).code ∈
      (to_rosetta_response ser serErr (Except.error e)).2 := by
  refine ⟨?_, ?_, rfl, ?_⟩
  · intro e'
    cases hs : serErr (convert_to_error e') <;>
      simp [to_rosetta_response, hs, internal_error_response]
  · simp [to_rosetta_response, h, internal_error_response]
  · simp [to_rosetta_response, h, internal_error_response]

/-- C3 witness: a concrete error with protocol code 531 translates to
status 500 with the serialized envelope as body and an increment keyed
"531". -/
theorem c3_witness :
    (to_rosetta_response (fun n : Nat => some (toString n))
        (fun er : RosettaError => some (toString er.code))
        (Except.error (ApiError.mk 531 "m" true))).1.status = 500 ∧
    (to_rosetta_response (fun n : Nat => some (toString n))
        (fun er : RosettaError => some (toString er.code))
        (Except.error (ApiError.mk 531 "m" true))).1.body = "531" ∧
    "531" ∈ (to_rosetta_response (fun n : Nat => some (toString n))
        (fun er : RosettaError => some (toString er.code))
        (Except.error (ApiError.mk 531 "m" true))).2 := by
  have h := c3_translate_err_status_500 (fun n : Nat => some (toString n))
    (fun er : RosettaError => some (toString er.code))
    (ApiError.mk 531 "m" true) "531" (by decide)
  exact ⟨h.1 (ApiError.mk 531 "m" true), h.2.1, h.2.2.2⟩

/-- C4: translating `Ok(v)`: when serialization of `v` succeeds with `s`,
the response is status 200 with body `s` and the status counter keyed
"200" is incremented by exactly 1; when serialization fails, the response
is status 500 with the fixed generic serialization-error payload as body
and the status counter keyed "700" is incremented by exactly 1. -/
theorem c4_translate_ok {S : Type} (ser : S → Option String)
    (serErr : RosettaError → Option String) (v : S) :
    (∀ s : String, ser v = some s →
      (to_rosetta_response ser serErr (Except.ok v)).1.status = 200 ∧
      (to_rosetta_response ser serErr (Except.ok v)).1.body = s ∧
      (to_rosetta_response ser serErr (Except.ok v)).2.count "200" = 1) ∧
    (ser v = none →
      (to_rosetta_response ser serErr (Except.ok v)).1.status = 500 ∧
      (to_rosetta_response ser serErr (Except.ok v)).1.body =
        serialization_error_json_str ∧
      (to_rosetta_response ser serErr (Except.ok v)).2.count "700" = 1) := by
  constructor
  · intro s hs
    simp [to_rosetta_response, hs]
  · intro hn
    simp [to_rosetta_response, hn, internal_error_response]

/-- C4 witness: a concrete serializable value yields 200 with its
serialization and a single "200" increment; a concrete failing serializer
yields 500 with the fixed payload and a single "700" increment. -/
theorem c4_witness :
    (to_rosetta_response (fun n : Nat => some (toString n))
        (fun er : RosettaError => some (toString er.code))
        (Except.ok 5)).1.status = 200 ∧
    (to_rosetta_response (fun n : Nat => some (toString n))
        (fun er : RosettaError => some (toString er.code))
        (Except.ok 5)).1.body = "5" ∧
    (to_rosetta_response (fun n : Nat => some (toString n))
        (fun er : RosettaError => some (toString er.code))
        (Except.ok 5)).2.count "200" = 1 ∧
    (to_rosetta_response (fun _ : Nat => (none : Option String))
        (fun er : RosettaError => some (toString er.code))
        (Except.ok 5)).1.status = 500 ∧
    (to_rosetta_response (fun _ : Nat => (none : Option String))
        (fun er : RosettaError => some (toString er.code))
        (Except.ok 5)).1.body = serialization_error_json_str ∧
    (to_rosetta_response (fun _ : Nat => (none : Option String))
        (fun er : RosettaError => some (toString er.code))
        (Except.ok 5)).2.count "700" = 1 := by
  have hok := (c4_translate_ok (fun n : Nat => some (toString n))
    (fun er : RosettaError => some (toString er.code)) 5).1 "5" (by decide)
  have hfail := (c4_translate_ok (fun _ : Nat => (none : Option String))
    (fun er : RosettaError => some (toString er.code)) 5).2 rfl
  exact ⟨hok.1, hok.2.1, hok.2.2, hfail.1, hfail.2.1, hfail.2.2⟩

/-- C5: exactly one heartbeat is emitted per executed sync-loop body,
whether `sync_blocks` succeeded or failed (first conjunct, over every
iteration input), and over any whole run of the loop the number of
heartbeats equals the number of iterations that executed the body
(second conjunct). -/
theorem c5_one_heartbeat_per_iteration (mn nw eos : Bool) (sa : Nat) :
    (∀ (now : Nat) (res : Option SyncErr),
      (syncIter mn nw eos sa now res).2.1.count SyncEvent.heartbeat = 1) ∧
    (∀ inputs : List (Bool × Nat × Option SyncErr),
      (start_sync_thread mn nw eos sa inputs).1.count SyncEvent.heartbeat =
        bodyIterations eos inputs) :=
  ⟨fun now res => syncIter_heartbeat_count mn nw eos sa now res,
   fun inputs => heartbeat_count_loop mn nw eos inputs sa⟩

/-- C6: over any run consisting of N consecutive failing `sync_blocks`
iterations with non-decreasing observation instants, the sync-error
counter is incremented exactly N times and the successive values written
to the "seconds since last success" gauge are non-decreasing; moreover a
successful iteration advances the last-success baseline `synced_at` to
the current instant while a failed one leaves it unchanged — which is
why the gauge drops toward zero only after the next success. -/
theorem c6_sync_error_counter_and_gauge (mn nw : Bool) (sa : Nat)
    (fails : List (Nat × SyncErr))
    (hmono : List.Chain' (fun a b : Nat × SyncErr => a.1 ≤ b.1) fails) :
    (start_sync_thread mn nw false sa
        (fails.map (fun p => (false, p.1, some p.2)))).1.count
      SyncEvent.syncErrInc = fails.length ∧
    List.Chain' (· ≤ ·) (gaugeValues (start_sync_thread mn nw false sa
        (fails.map (fun p => (false, p.1, some p.2)))).1) ∧
    (∀ now : Nat, (syncIter mn nw false sa now none).1 = now) ∧
    (∀ (now : Nat) (e : SyncErr),
      (syncIter mn nw false sa now (some e)).1 = sa) := by
  refine ⟨(sync_failures_run mn nw fails sa).1, ?_, fun now => rfl,
    fun now e => rfl⟩
  rw [(sync_failures_run mn nw fails sa).2, List.chain'_map]
  exact hmono.imp (fun a b hab => Nat.sub_le_sub_right hab sa)

/-- C6 witness: two consecutive failures at instants 5 and 7 increment the
sync-error counter exactly twice and write a non-decreasing gauge
sequence. -/
theorem c6_witness :
    (start_sync_thread false false false 0
        ([((5 : Nat), SyncErr.mk true), ((7 : Nat), SyncErr.mk false)].map
          (fun p => (false, p.1, some p.2)))).1.count
      SyncEvent.syncErrInc = 2 ∧
    List.Chain' (· ≤ ·) (gaugeValues (start_sync_thread false false false 0
        ([((5 : Nat), SyncErr.mk true), ((7 : Nat), SyncErr.mk false)].map
          (fun p => (false, p.1, some p.2)))).1) :=
  ⟨(c6_sync_error_counter_and_gauge false false 0
      [(5, SyncErr.mk true), (7, SyncErr.mk false)]
      (by rw [List.chain'_cons]
          exact ⟨by norm_num, List.chain'_singleton _⟩)).1,
   (c6_sync_error_counter_and_gauge false false 0
      [(5, SyncErr.mk true), (7, SyncErr.mk false)]
      (by rw [List.chain'_cons]
          exact ⟨by norm_num, List.chain'_singleton _⟩)).2.1⟩

/-- C7: whenever the sync loop terminates — the stop signal observed true
at the loop head (including before any body ran) or the `exit_on_sync`
break — the `cleanup()` event appears exactly once and is the very last
event; while the loop is still running, no `cleanup()` has happened. -/
theorem c7_cleanup_exactly_once (mn nw eos : Bool) (sa : Nat)
    (inputs : List (Bool × Nat × Option SyncErr)) :
    ((start_sync_thread mn nw eos sa inputs).2 = true →
      (start_sync_thread mn nw eos sa inputs).1.count SyncEvent.cleanup = 1 ∧
      (start_sync_thread mn nw eos sa inputs).1.getLast? =
        some SyncEvent.cleanup) ∧
    ((start_sync_thread mn nw eos sa inputs).2 = false →
      (start_sync_thread mn nw eos sa inputs).1.count SyncEvent.cleanup = 0) :=
  cleanup_once_loop mn nw eos inputs sa

/-- C7 witness: a loop whose stop signal is already true before the first
iteration terminates with `cleanup` as its single, final event; an
exhausted trace that never stopped has no `cleanup`. -/
theorem c7_witness :
    ((start_sync_thread false false false 0 [(true, 0, none)]).1.count
        SyncEvent.cleanup = 1 ∧
      (start_sync_thread false false false 0 [(true, 0, none)]).1.getLast? =
        some SyncEvent.cleanup) ∧
    (start_sync_thread false false false 0 [(false, 1, none)]).1.count
      SyncEvent.cleanup = 0 :=
  ⟨(c7_cleanup_exactly_once false false false 0 [(true, 0, none)]).1 rfl,
   (c7_cleanup_exactly_once false false false 0 [(false, 1, none)]).2 rfl⟩

/-- C8: calling `run` in state `Started` or `OfflineStarted` returns
success immediately, leaves the state unchanged, and performs no side
effects, for every combination of options and listener outcome. -/
theorem c8_run_reentrant_noop (o : RosettaApiServerOpt)
    (r : Except String Unit) :
    RosettaApiServer.run ServerState.Started o r =
      (ServerState.Started, Except.ok (), []) ∧
    RosettaApiServer.run ServerState.OfflineStarted o r =
      (ServerState.OfflineStarted, Except.ok (), []) :=
  ⟨rfl, rfl⟩

/-- C9: on a failing iteration the logged error message carries the
whitelisting hint exactly when `is_internal_error_403` holds and
`mainnet = true` and `not_whitelisted = false`; in every other
combination the appended hint is the empty string. The first conjunct
ties `msg_403` to the event actually emitted by the loop body. -/
theorem c9_whitelisting_hint (mn nw eos : Bool) (sa now : Nat)
    (err : SyncErr) :
    SyncEvent.logError (msg_403 mn nw err) ∈
      (syncIter mn nw eos sa now (some err)).2.1 ∧
    (msg_403 mn nw err = hint_403 ↔
      err.is_internal_error_403 = true ∧ mn = true ∧ nw = false) ∧
    (¬(err.is_internal_error_403 = true ∧ mn = true ∧ nw = false) →
      msg_403 mn nw err = "") := by
  refine ⟨?_, ?_, ?_⟩
  · cases eos <;> simp [syncIter]
  · obtain ⟨b⟩ := err
    cases b <;> cases mn <;> cases nw <;> simp [msg_403] <;> decide
  · obtain ⟨b⟩ := err
    cases b <;> cases mn <;> cases nw <;> simp [msg_403]

/-- C9 witness: with mainnet, whitelisting assumed, and a 403 internal
error the hint is appended; dropping the mainnet flag yields an empty
hint. -/
theorem c9_witness :
    msg_403 true false (SyncErr.mk true) = hint_403 ∧
    msg_403 false false (SyncErr.mk true) = "" :=
  ⟨(c9_whitelisting_hint true false false 0 0 (SyncErr.mk true)).2.1.mpr
      ⟨rfl, rfl, rfl⟩,
   (c9_whitelisting_hint false false false 0 0 (SyncErr.mk true)).2.2
      (by decide)⟩

/-- C10 (implicit): when the converted envelope of `Err(e)` serializes
successfully, the translation performs exactly two status-counter
increments, in order: one keyed by the stringified protocol error code
and one keyed "700" (the latter because the error response is produced
through `internal_error_response`); when the code string differs from
"700" this is two distinct counters, each incremented once. -/
theorem c10_err_increments_two_counters {S : Type} (ser : S → Option String)
    (serErr : RosettaError → Option String) (e : ApiError) (resp : String)
    (h : serErr (convert_to_error e) = some resp) :
    (to_rosetta_response ser serErr (Except.error e)).2 =
      [toString (convert_to_error e).code, "700"] ∧
    (toString (convert_to_error e).code ≠ "700" →
      (to_rosetta_response ser serErr (Except.error e)).2.count
          (toString (convert_to_error e).code) = 1 ∧
      (to_rosetta_response ser serErr (Except.error e)).2.count "700" = 1) := by
  constructor
  · simp [to_rosetta_response, h, internal_error_response]
  · intro hne
    simp [to_rosetta_response, h, internal_error_response,
      List.count_cons, hne, Ne.symm hne]

/-- C10 witness: a concrete error with protocol code 531 produces exactly
the increment trace ["531", "700"], one increment on each of the two
counters. -/
theorem c10_witness :
    (to_rosetta_response (fun n : Nat => some (toString n))
        (fun er : RosettaError => some (toString er.code))
        (Except.error (ApiError.mk 531 "m" true))).2 =
      [toString (531 : Nat), "700"] ∧
    (to_rosetta_response (fun n : Nat => some (toString n))
        (fun er : RosettaError => some (toString er.code))
        (Except.error (ApiError.mk 531 "m" true))).2.count
      (toString (531 : Nat)) = 1 := by
  have h := c10_err_increments_two_counters (fun n : Nat => some (toString n))
    (fun er : RosettaError => some (toString er.code))
    (ApiError.mk 531 "m" true) "531" (by decide)
  exact ⟨h.1, (h.2 (by decide)).1⟩
